import Mathlib

/-!
Shallow embedding of the TeleChat push-notification backend (`src/main.py`).

Firestore documents are modelled as Lean structures with `Option` fields for
fields that may be absent from a stored document; Python string truthiness
(`x or y`) is modelled by `py_or_str` / `py_or_list`; an `HTTPException`
raised by an endpoint is modelled as the `Except.error` side of an
`Except HTTPError` result.  The external world (Firestore collections and the
FCM `messaging.send` call) is an explicit `Env` record of lookup functions.
-/

namespace TeleChat

/-- Python `a or b` on an optional string: `None` and `""` are falsy. -/
def py_or_str (a : Option String) (b : String) : String :=
  match a with
  | none => b
  | some s => if s = "" then b else s

/-- Python `a or b` on a plain string: `""` is falsy. -/
def py_str_or (a b : String) : String :=
  if a = "" then b else a

/-- Python `a or b` on an optional list: `None` and `[]` are falsy. -/
def py_or_list (a : Option (List String)) (b : List String) : List String :=
  match a with
  | none => b
  | some l => if l = [] then b else l

/-- An `HTTPException(status_code, detail)`. -/
structure HTTPError where
  status : Nat
  detail : String
  deriving DecidableEq, Repr

/-- A stored `chats/{chat_id}` document; every field may be absent. -/
structure ChatDoc where
  type : Option String
  participants : Option (List String)
  members : Option (List String)
  name : Option String
  groupPhotoUrl : Option String
  deriving DecidableEq, Repr

/-- The chat metadata dict returned by `get_chat_metadata`. -/
structure ChatMeta where
  type : String
  name : String
  photoURL : String
  participants : List String
  deriving DecidableEq, Repr

/-- The stored `users/{uid}.notificationSettings` sub-document (all fields optional). -/
structure StoredSettings where
  enabled : Option Bool
  groupsEnabled : Option Bool
  contactsEnabled : Option Bool
  previewMode : Option String
  ignoredGroups : Option (List String)
  ignoredContacts : Option (List String)
  mutedChats : Option (List String)
  deriving DecidableEq, Repr

/-- A stored `users/{uid}` document. -/
structure UserDoc where
  name : Option String
  displayName : Option String
  profilePhotoUrl : Option String
  settingsDoc : Option StoredSettings
  mutedChats : Option (List String)
  deriving DecidableEq, Repr

/-- A stored `userTokens/{uid}` document. -/
structure TokenDoc where
  token : Option String
  deriving DecidableEq, Repr

/-- Fully-merged notification settings (`{**DEFAULT_NOTIFICATION_SETTINGS, **s}`). -/
structure NotificationSettings where
  enabled : Bool
  groupsEnabled : Bool
  contactsEnabled : Bool
  previewMode : String
  ignoredGroups : List String
  ignoredContacts : List String
  mutedChats : List String
  deriving DecidableEq, Repr

/-- `DEFAULT_NOTIFICATION_SETTINGS` from the source. -/
def DEFAULT_NOTIFICATION_SETTINGS : NotificationSettings :=
  { enabled := true
    groupsEnabled := true
    contactsEnabled := true
    previewMode := "full"
    ignoredGroups := []
    ignoredContacts := []
    mutedChats := [] }

/-- `get_chat_metadata`: reads `chats/{chat_id}` (here: an optional document),
404s when the document does not exist, otherwise assembles the metadata dict
exactly as the source does (type defaulting, `participants or members or []`,
name fallback, group-only photo). -/
def get_chat_metadata (snap : Option ChatDoc) : Except HTTPError ChatMeta :=
  match snap with
  | none => Except.error ⟨404, "Chat introuvable"⟩
  | some data =>
    let chat_type := data.type.getD "individual"
    let participants := py_or_list data.participants (py_or_list data.members [])
    let name := py_or_str data.name (if chat_type = "group" then "Groupe" else "Utilisateur")
    let photo : Option String := if chat_type = "group" then data.groupPhotoUrl else some ""
    Except.ok
      { type := chat_type
        name := name
        photoURL := py_or_str photo ""
        participants := participants }

/-- A user profile as returned by `get_user_profile`. -/
structure UserProfile where
  displayName : String
  photoURL : String
  deriving DecidableEq, Repr

/-- `get_user_profile`: default profile when the document is absent, else
`name or displayName or "Utilisateur"` and `profilePhotoUrl or ""`. -/
def get_user_profile (snap : Option UserDoc) : UserProfile :=
  match snap with
  | none => { displayName := "Utilisateur", photoURL := "" }
  | some d =>
    { displayName := py_or_str d.name (py_or_str d.displayName "Utilisateur")
      photoURL := py_or_str d.profilePhotoUrl "" }

/-- `get_user_notification_settings`: pure defaults when the user document is
absent; otherwise overlay the stored sub-document onto the defaults
(`{**DEFAULT_NOTIFICATION_SETTINGS, **s}`) and let a top-level `mutedChats`
list on the user document override the merged one. -/
def get_user_notification_settings (snap : Option UserDoc) : NotificationSettings :=
  match snap with
  | none => DEFAULT_NOTIFICATION_SETTINGS
  | some d =>
    let s := d.settingsDoc.getD ⟨none, none, none, none, none, none, none⟩
    let merged : NotificationSettings :=
      { enabled := s.enabled.getD DEFAULT_NOTIFICATION_SETTINGS.enabled
        groupsEnabled := s.groupsEnabled.getD DEFAULT_NOTIFICATION_SETTINGS.groupsEnabled
        contactsEnabled := s.contactsEnabled.getD DEFAULT_NOTIFICATION_SETTINGS.contactsEnabled
        previewMode := s.previewMode.getD DEFAULT_NOTIFICATION_SETTINGS.previewMode
        ignoredGroups := s.ignoredGroups.getD DEFAULT_NOTIFICATION_SETTINGS.ignoredGroups
        ignoredContacts := s.ignoredContacts.getD DEFAULT_NOTIFICATION_SETTINGS.ignoredContacts
        mutedChats := s.mutedChats.getD DEFAULT_NOTIFICATION_SETTINGS.mutedChats }
    match d.mutedChats with
    | some l => { merged with mutedChats := l }
    | none => merged

/-- `get_fcm_token_for_user`: `None` when the token document is absent,
otherwise the (possibly absent) `token` field. -/
def get_fcm_token_for_user (snap : Option TokenDoc) : Option String :=
  match snap with
  | none => none
  | some d => d.token

/-- `list_group_receivers`: `[uid for uid in participants if uid and uid != sender_id]`
(note the Python truthiness check also drops empty uids). -/
def list_group_receivers (participants : List String) (sender_id : String) : List String :=
  participants.filter (fun uid => !(uid = "") && !(uid = sender_id))

/-- `get_individual_receiver`: 400 when fewer than two participants, else the
first participant different from the sender, 400 when there is none. -/
def get_individual_receiver (participants : List String) (sender_id : String) :
    Except HTTPError String :=
  if participants.length < 2 then
    Except.error ⟨400, "Participants du chat invalides"⟩
  else
    let others := participants.filter (fun uid => !(uid = sender_id))
    match others with
    | [] => Except.error ⟨400, "Impossible de trouver le destinataire"⟩
    | r :: _ => Except.ok r

/-- `server_should_notify`: the ordered server-side policy gate. -/
def server_should_notify (settings : NotificationSettings)
    (chat_type chat_id sender_id : String) : Bool × String :=
  if !settings.enabled then
    (false, "global_off")
  else if chat_type = "group" && !settings.groupsEnabled then
    (false, "groups_off")
  else if !(chat_type = "group") && !settings.contactsEnabled then
    (false, "contacts_off")
  else if chat_id ∈ settings.mutedChats then
    (false, "chat_muted")
  else if chat_type = "group" then
    if chat_id ∈ settings.ignoredGroups then (false, "group_ignored") else (true, "ok")
  else
    if sender_id ∈ settings.ignoredContacts then (false, "contact_ignored") else (true, "ok")

/-- `build_common_data`: the flat string-keyed FCM payload, in the source's
key order, with the `or ""` defaults on the optional-ish fields. -/
def build_common_data (chat_id chat_type sender_id receiver_id sender_name
    sender_photo chat_name chat_photo preview title body : String) :
    List (String × String) :=
  [("type", "chat_message"),
   ("chat_id", chat_id),
   ("chat_type", chat_type),
   ("sender_id", sender_id),
   ("receiver_id", receiver_id),
   ("sender_name", sender_name),
   ("sender_photo", py_str_or sender_photo ""),
   ("chat_name", chat_name),
   ("chat_photo", py_str_or chat_photo ""),
   ("preview", py_str_or preview ""),
   ("title", py_str_or title ""),
   ("body", py_str_or body "")]

/-- The external world: the three Firestore collections read by the dispatch
path, and the FCM `messaging.send` call, which either returns a message id or
raises (modelled as `Except.error` with the exception text). -/
structure Env where
  chats : String → Option ChatDoc
  users : String → Option UserDoc
  userTokens : String → Option TokenDoc
  fcmSend : String → List (String × String) → Except String String

/-- `send_data_only_to_token`: a transparent wrapper around `messaging.send`
(the source only adds logging and re-raises every exception). -/
def send_data_only_to_token (env : Env) (token : String)
    (data : List (String × String)) : Except String String :=
  env.fcmSend token data

/-- The body of a `/api/messages/send-notif` request. -/
structure SendMessageNotifRequest where
  sender_id : String
  chat_id : String
  content : String
  deriving DecidableEq, Repr

/-- `(req.content or "")[:120]`: the 120-character preview. -/
def preview_of (content : String) : String :=
  String.mk ((py_str_or content "").data.take 120)

/-- The `title_base` / `body_base` computation of `send_message_notification`:
group chats headline the chat name with a `"sender: preview"` body, everything
else headlines the sender with the bare preview. -/
def title_body (chat_type chat_name sender_name preview : String) : String × String :=
  if chat_type = "group" then (chat_name, sender_name ++ ": " ++ preview)
  else (sender_name, preview)

/-- The per-batch values shared by every recipient of one fanout. -/
structure FanoutCtx where
  chat_id : String
  chat_type : String
  sender_id : String
  sender_name : String
  sender_photo : String
  chat_name : String
  chat_photo : String
  preview : String
  title : String
  body : String
  deriving DecidableEq, Repr

/-- One per-recipient outcome of the fanout loop. -/
inductive Outcome where
  | sent (receiver_id message_id : String)
  | skipped (receiver_id reason : String)
  deriving DecidableEq, Repr

/-- The body of the `for receiver_id in target_uids` loop: settings lookup,
policy gate, token lookup (Python-falsy: absent or empty), payload build and
send; an exception from the send is caught and recorded as a `send_error`
skip for this recipient alone. -/
def processOne (env : Env) (c : FanoutCtx) (receiver_id : String) : Outcome :=
  let settings := get_user_notification_settings (env.users receiver_id)
  let pr := server_should_notify settings c.chat_type c.chat_id c.sender_id
  if pr.1 then
    match get_fcm_token_for_user (env.userTokens receiver_id) with
    | none => Outcome.skipped receiver_id "no_token"
    | some t =>
      if t = "" then Outcome.skipped receiver_id "no_token"
      else
        let data := build_common_data c.chat_id c.chat_type c.sender_id receiver_id
          c.sender_name c.sender_photo c.chat_name c.chat_photo c.preview c.title c.body
        match send_data_only_to_token env t data with
        | Except.ok msg_id => Outcome.sent receiver_id msg_id
        | Except.error _ => Outcome.skipped receiver_id "send_error"
  else
    Outcome.skipped receiver_id pr.2

/-- The fanout loop: walks the recipients in order, appending each outcome to
the `sent` or `skipped` accumulator exactly as the imperative loop does. -/
def fanout_go (env : Env) (c : FanoutCtx) :
    List String → List (String × String) → List (String × String) →
    List (String × String) × List (String × String)
  | [], sent, skipped => (sent, skipped)
  | r :: rest, sent, skipped =>
    match processOne env c r with
    | Outcome.sent rid m => fanout_go env c rest (sent ++ [(rid, m)]) skipped
    | Outcome.skipped rid reason => fanout_go env c rest sent (skipped ++ [(rid, reason)])

/-- Recipient resolution in `send_message_notification`: group chats use
`list_group_receivers`, anything else wraps `get_individual_receiver` in a
singleton list. -/
def resolve_targets (chat_type : String) (participants : List String)
    (sender_id : String) : Except HTTPError (List String) :=
  if chat_type = "group" then
    Except.ok (list_group_receivers participants sender_id)
  else
    (get_individual_receiver participants sender_id).map (fun r => [r])

/-- The JSON body of a successful `/api/messages/send-notif` response. -/
structure NotifResponse where
  success : Bool
  chat_id : String
  chat_type : String
  sent : List (String × String)
  skipped : List (String × String)
  deriving DecidableEq, Repr

/-- `send_message_notification`: resolve the chat (404 when absent), resolve
the recipients (400 on malformed participants or when none remain), resolve
the sender profile and the shared preview/title/body once, then fan out and
always answer `success: true`. -/
def send_message_notification (env : Env) (req : SendMessageNotifRequest) :
    Except HTTPError NotifResponse :=
  match get_chat_metadata (env.chats req.chat_id) with
  | Except.error e => Except.error e
  | Except.ok meta =>
    match resolve_targets meta.type meta.participants req.sender_id with
    | Except.error e => Except.error e
    | Except.ok target_uids =>
      if target_uids = [] then Except.error ⟨400, "Aucun destinataire"⟩
      else
        let sender := get_user_profile (env.users req.sender_id)
        let preview_plain := preview_of req.content
        let tb := title_body meta.type meta.name sender.displayName preview_plain
        let c : FanoutCtx :=
          { chat_id := req.chat_id
            chat_type := meta.type
            sender_id := req.sender_id
            sender_name := sender.displayName
            sender_photo := sender.photoURL
            chat_name := meta.name
            chat_photo := meta.photoURL
            preview := preview_plain
            title := tb.1
            body := tb.2 }
        let res := fanout_go env c target_uids [] []
        Except.ok
          { success := true
            chat_id := req.chat_id
            chat_type := meta.type
            sent := res.1
            skipped := res.2 }

/-- The spec's chat kinds: `individual` or `group`. -/
inductive ChatKind where
  | group
  | individual
  deriving DecidableEq, Repr

/-- Modelled from the spec's §4.3 rule list (first match wins): the policy
gate as the specification words it, used to check `server_should_notify`
against it. -/
def spec_policy (s : NotificationSettings) (kind : ChatKind)
    (chat_id sender_id : String) : Bool × String :=
  if s.enabled = false then (false, "global_off")
  else if kind = ChatKind.group ∧ s.groupsEnabled = false then (false, "groups_off")
  else if kind = ChatKind.individual ∧ s.contactsEnabled = false then (false, "contacts_off")
  else if chat_id ∈ s.mutedChats then (false, "chat_muted")
  else if kind = ChatKind.group ∧ chat_id ∈ s.ignoredGroups then (false, "group_ignored")
  else if kind = ChatKind.individual ∧ sender_id ∈ s.ignoredContacts then (false, "contact_ignored")
  else (true, "ok")

/-- Projects the `sent` view of an outcome. -/
def out_sent : Outcome → Option (String × String)
  | Outcome.sent r m => some (r, m)
  | Outcome.skipped _ _ => none

/-- Projects the `skipped` view of an outcome. -/
def out_skip : Outcome → Option (String × String)
  | Outcome.sent _ _ => none
  | Outcome.skipped r reason => some (r, reason)

/-- A world whose only FCM send always raises, and where user `u2` has a
registered token: exercises the caught-exception path of the fanout loop. -/
def envSendFail : Env :=
  { chats := fun _ => none
    users := fun _ => none
    userTokens := fun uid => if uid = "u2" then some ⟨some "tok2"⟩ else none
    fcmSend := fun _ _ => Except.error "boom" }

/-- A concrete fanout context used to instantiate fanout theorems. -/
def ctxEx : FanoutCtx :=
  { chat_id := "c1"
    chat_type := "individual"
    sender_id := "u1"
    sender_name := "Sender"
    sender_photo := ""
    chat_name := "Chat"
    chat_photo := ""
    preview := "hello"
    title := "Sender"
    body := "hello" }

/-- A world with a group chat `g1` whose only participant is the sender, so
the resolved recipient list is empty. -/
def envEmptyGroup : Env :=
  { chats := fun cid =>
      if cid = "g1" then some ⟨some "group", some ["u1"], none, some "Solo", none⟩ else none
    users := fun _ => none
    userTokens := fun _ => none
    fcmSend := fun t _ => Except.ok (String.append "mid-" t) }

/-- A world with an individual chat `c1` between `u1` and `u2`, where `u2`
has switched notifications off globally: the request still succeeds while
`u2` is skipped. -/
def envAllSkipped : Env :=
  { chats := fun cid =>
      if cid = "c1" then some ⟨some "individual", some ["u1", "u2"], none, none, none⟩
      else none
    users := fun uid =>
      if uid = "u2" then
        some ⟨some "Bob", none, none,
          some ⟨some false, none, none, none, none, none, none⟩, none⟩
      else none
    userTokens := fun uid => if uid = "u2" then some ⟨some "tok2"⟩ else none
    fcmSend := fun t _ => Except.ok (String.append "mid-" t) }

/-- A world with no chats at all: every send-notif request 404s. -/
def envNoChat : Env :=
  { chats := fun _ => none
    users := fun _ => none
    userTokens := fun _ => none
    fcmSend := fun _ _ => Except.error "down" }

theorem py_str_or_empty (s : String) : py_str_or s "" = s := by
  unfold py_str_or
  split <;> simp_all

theorem preview_of_data (c : String) : (preview_of c).data = c.data.take 120 := by
  simp [preview_of, py_str_or_empty]

/-- Claim C6: the content preview is the message content truncated to at most
120 characters with no characters added: a 200-character content yields
exactly its first 120 characters, any content of at most 120 characters is
passed through unchanged, and truncation is idempotent. -/
theorem C6_preview_truncation (c : String) :
    (preview_of c).data = c.data.take 120 ∧
    (preview_of c).length ≤ 120 ∧
    (c.length = 200 → (preview_of c).length = 120) ∧
    (c.length ≤ 120 → preview_of c = c) ∧
    preview_of (preview_of c) = preview_of c := by
  have hdata : (preview_of c).data = c.data.take 120 := preview_of_data c
  have hlen : (preview_of c).length = min 120 c.length := by
    show (preview_of c).data.length = min 120 c.data.length
    rw [hdata, List.length_take]
  refine ⟨hdata, ?_, ?_, ?_, ?_⟩
  · simp [hlen]
  · intro h
    simp [hlen, h]
  · intro h
    have : c.data.take 120 = c.data := List.take_of_length_le h
    cases c with
    | mk l =>
      apply congrArg String.mk
      simpa [preview_of, py_str_or_empty] using this
  · cases c with
    | mk l =>
      apply congrArg String.mk
      simp [preview_of, py_str_or_empty, List.take_take]

/-- Claim C6 witness: a concrete 200-character content yields a 120-character
preview, and a short content is passed through unchanged. -/
theorem C6_preview_truncation_witness :
    (preview_of (String.mk (List.replicate 200 'a'))).length = 120 ∧
    preview_of "hello" = "hello" :=
  ⟨(C6_preview_truncation (String.mk (List.replicate 200 'a'))).2.2.1
    (by show (List.replicate 200 'a').length = 200; rw [List.length_replicate]),
   (C6_preview_truncation "hello").2.2.2.1 (by decide)⟩

/-- Claim C9: the policy decision never depends on `previewMode`: changing
only the `previewMode` field of the settings leaves the result of
`server_should_notify` unchanged for every chat kind, chat id and sender. -/
theorem C9_previewMode_noninterference (s : NotificationSettings)
    (p chat_type chat_id sender_id : String) :
    server_should_notify { s with previewMode := p } chat_type chat_id sender_id =
      server_should_notify s chat_type chat_id sender_id := by
  cases s
  rfl

/-- Claim C2: the policy gate evaluates its rules in the spec's fixed order
(first match wins) for both chat kinds, and in particular disabled settings
with a muted chat report `global_off`, never `chat_muted`. -/
theorem C2_policy_order (s : NotificationSettings) (chat_id sender_id : String) :
    server_should_notify s "group" chat_id sender_id =
      spec_policy s ChatKind.group chat_id sender_id ∧
    server_should_notify s "individual" chat_id sender_id =
      spec_policy s ChatKind.individual chat_id sender_id ∧
    (∀ chat_type, s.enabled = false →
      (server_should_notify s chat_type chat_id sender_id).2 = "global_off") := by
  refine ⟨?_, ?_, ?_⟩
  · cases h1 : s.enabled <;> cases h2 : s.groupsEnabled <;>
      simp [server_should_notify, spec_policy, h1, h2]
  · cases h1 : s.enabled <;> cases h3 : s.contactsEnabled <;>
      simp [server_should_notify, spec_policy, h1, h3]
  · intro chat_type h
    simp [server_should_notify, h]

/-- Claim C2 witness: concrete disabled settings with the chat muted still
report `global_off`. -/
theorem C2_policy_order_witness :
    (server_should_notify
      { DEFAULT_NOTIFICATION_SETTINGS with enabled := false, mutedChats := ["c1"] }
      "group" "c1" "u1").2 = "global_off" :=
  (C2_policy_order
    { DEFAULT_NOTIFICATION_SETTINGS with enabled := false, mutedChats := ["c1"] }
    "c1" "u1").2.2 "group" rfl

/-- Claim C4: an individual chat `[a, b]` with sender `a` resolves to exactly
`b`; fewer than two participants is a 400, and a 400 is also raised when no
participant other than the sender remains. -/
theorem C4_individual_resolution (participants : List String) (sender_id : String) :
    (participants.length < 2 →
      get_individual_receiver participants sender_id =
        Except.error ⟨400, "Participants du chat invalides"⟩) ∧
    (∀ a b, b ≠ a → get_individual_receiver [a, b] a = Except.ok b) ∧
    (2 ≤ participants.length →
      participants.filter (fun uid => !(uid = sender_id)) = [] →
      get_individual_receiver participants sender_id =
        Except.error ⟨400, "Impossible de trouver le destinataire"⟩) := by
  refine ⟨?_, ?_, ?_⟩
  · intro h
    simp [get_individual_receiver, h]
  · intro a b hne
    simp [get_individual_receiver, hne]
  · intro h2 hfil
    rw [get_individual_receiver, if_neg (by omega)]
    simp [hfil]

/-- Claim C4 witness: a one-element list 400s, `["u1", "u2"]` with sender
`u1` resolves to `u2`, and `["u1", "u1"]` with sender `u1` 400s. -/
theorem C4_individual_resolution_witness :
    get_individual_receiver ["u1"] "u9" =
      Except.error ⟨400, "Participants du chat invalides"⟩ ∧
    get_individual_receiver ["u1", "u2"] "u1" = Except.ok "u2" ∧
    get_individual_receiver ["u1", "u1"] "u1" =
      Except.error ⟨400, "Impossible de trouver le destinataire"⟩ :=
  ⟨(C4_individual_resolution ["u1"] "u9").1 (by decide),
   (C4_individual_resolution [] "").2.1 "u1" "u2" (by decide),
   (C4_individual_resolution ["u1", "u1"] "u1").2.2 (by decide) (by decide)⟩

/-- Claim C10: with at least two participants, the individual-chat resolver
returns the first participant in list order whose id differs from the sender,
and the dispatcher's target list is exactly that singleton, even when several
non-sender participants exist. -/
theorem C10_first_non_sender (participants : List String) (sender_id r : String)
    (rest : List String) :
    2 ≤ participants.length →
    participants.filter (fun uid => !(uid = sender_id)) = r :: rest →
    get_individual_receiver participants sender_id = Except.ok r ∧
    resolve_targets "individual" participants sender_id = Except.ok [r] := by
  intro h2 hfil
  have hrec : get_individual_receiver participants sender_id = Except.ok r := by
    rw [get_individual_receiver, if_neg (by omega)]
    simp [hfil]
  refine ⟨hrec, ?_⟩
  rw [resolve_targets, if_neg (by decide), hrec]
  rfl

/-- Claim C10 witness: in `["a", "b", "c"]` with sender `a`, both `b` and `c`
are non-senders, yet only `b` (the first) is targeted. -/
theorem C10_first_non_sender_witness :
    get_individual_receiver ["a", "b", "c"] "a" = Except.ok "b" ∧
    resolve_targets "individual" ["a", "b", "c"] "a" = Except.ok ["b"] :=
  C10_first_non_sender ["a", "b", "c"] "a" "b" ["c"] (by decide) (by decide)

/-- Claim C3 counterexample: the group resolver also drops empty (falsy)
participant ids, so for `P = ["", "u2"]` and sender `u1` the result `["u2"]`
differs from `P` with the sender removed, which is `["", "u2"]` itself. -/
theorem C3_counterexample :
    list_group_receivers ["", "u2"] "u1" = ["u2"] ∧
    (["", "u2"] : List String).filter (fun uid => !(uid = "u1")) = ["", "u2"] ∧
    list_group_receivers ["", "u2"] "u1" ≠ ["", "u2"] := by
  refine ⟨by decide, by decide, by decide⟩

/-- Claim C3 (amended): the resolved group recipient list is `P` with the
sender and all empty ids removed, in original order (a sublist of `P`), never
containing the sender, and containing every non-empty non-sender participant;
and when that list is empty for a group chat, the request fails with a 400
("Aucun destinataire"). -/
theorem C3_group_resolution (P : List String) (s : String) :
    s ∉ list_group_receivers P s ∧
    "" ∉ list_group_receivers P s ∧
    List.Sublist (list_group_receivers P s) P ∧
    (∀ u, u ∈ P → u ≠ "" → u ≠ s → u ∈ list_group_receivers P s) ∧
    (∀ env req meta, get_chat_metadata (env.chats req.chat_id) = Except.ok meta →
      meta.type = "group" →
      list_group_receivers meta.participants req.sender_id = [] →
      send_message_notification env req = Except.error ⟨400, "Aucun destinataire"⟩) := by
  refine ⟨?_, ?_, ?_, ?_, ?_⟩
  · intro hmem
    rw [list_group_receivers, List.mem_filter] at hmem
    simp at hmem
  · intro hmem
    rw [list_group_receivers, List.mem_filter] at hmem
    simp at hmem
  · exact List.filter_sublist P
  · intro u hu h1 h2
    rw [list_group_receivers, List.mem_filter]
    exact ⟨hu, by simp [h1, h2]⟩
  · intro env req meta hok htype hempty
    rw [send_message_notification, hok]
    simp [resolve_targets, htype, hempty]

/-- Claim C3 witness: `u2` is resolved for the group `["u1", "u2"]` with
sender `u1`, and the group `g1` whose only participant is the sender makes
the whole request fail with 400. -/
theorem C3_group_resolution_witness :
    "u2" ∈ list_group_receivers ["u1", "u2"] "u1" ∧
    send_message_notification envEmptyGroup ⟨"u1", "g1", "hello"⟩ =
      Except.error ⟨400, "Aucun destinataire"⟩ :=
  ⟨(C3_group_resolution ["u1", "u2"] "u1").2.2.2.1 "u2" (by decide) (by decide) (by decide),
   (C3_group_resolution [] "").2.2.2.2 envEmptyGroup ⟨"u1", "g1", "hello"⟩
     ⟨"group", "Solo", "", ["u1"]⟩ rfl rfl (by decide)⟩

/-- Claim C7: the payload's title and body are computed from the chat kind:
group chats get the chat display name as title and `"sender: preview"` as
body, individual chats get the sender display name as title and the bare
preview as body, and the payload builder carries those values through
unchanged under the `title`/`body` keys. -/
theorem C7_title_body (chat_name sender_name preview : String) :
    title_body "group" chat_name sender_name preview =
      (chat_name, sender_name ++ ": " ++ preview) ∧
    title_body "individual" chat_name sender_name preview = (sender_name, preview) ∧
    (∀ cid ct sid rid sp cp t b,
      (build_common_data cid ct sid rid sender_name sp chat_name cp preview t b).lookup
        "title" = some t ∧
      (build_common_data cid ct sid rid sender_name sp chat_name cp preview t b).lookup
        "body" = some b) := by
  refine ⟨?_, ?_, ?_⟩
  · rw [title_body, if_pos rfl]
  · rw [title_body, if_neg (by decide)]
  · intro cid ct sid rid sp cp t b
    constructor <;> simp [build_common_data, List.lookup, py_str_or_empty]

/-- Claim C8: every payload has the same fixed twelve-key set in a fixed
order; optional fields that are absent upstream (sender photo, group photo)
reach the payload as the empty string; and the chat photo is the empty string
for every non-group chat. -/
theorem C8_payload_shape (cid ct sid rid sn sp cn cp pv t b : String) :
    (build_common_data cid ct sid rid sn sp cn cp pv t b).map Prod.fst =
      ["type", "chat_id", "chat_type", "sender_id", "receiver_id", "sender_name",
       "sender_photo", "chat_name", "chat_photo", "preview", "title", "body"] ∧
    (∀ doc m, get_chat_metadata (some doc) = Except.ok m → ¬ m.type = "group" →
      m.photoURL = "") ∧
    (∀ doc m, get_chat_metadata (some doc) = Except.ok m → doc.groupPhotoUrl = none →
      m.photoURL = "") ∧
    (get_user_profile none).photoURL = "" ∧
    (∀ d, d.profilePhotoUrl = none → (get_user_profile (some d)).photoURL = "") := by
  refine ⟨?_, ?_, ?_, ?_, ?_⟩
  · simp [build_common_data]
  · intro doc m h hng
    rw [get_chat_metadata] at h
    simp only [Except.ok.injEq] at h
    subst h
    simp only at hng ⊢
    rw [if_neg hng]
    rfl
  · intro doc m h hnone
    rw [get_chat_metadata] at h
    simp only [Except.ok.injEq] at h
    subst h
    simp only
    split
    · rw [hnone]
      rfl
    · rfl
  · rfl
  · intro d hd
    simp [get_user_profile, hd, py_or_str]

/-- Claim C8 witness: a concrete individual chat document with no photos
yields an empty chat photo and an empty sender photo. -/
theorem C8_payload_shape_witness :
    ((⟨"individual", "Utilisateur", "", ["u1", "u2"]⟩ : ChatMeta).photoURL = "") ∧
    (get_user_profile (some ⟨some "Bob", none, none, none, none⟩)).photoURL = "" :=
  ⟨(C8_payload_shape "" "" "" "" "" "" "" "" "" "" "").2.1
      ⟨some "individual", some ["u1", "u2"], none, none, none⟩
      ⟨"individual", "Utilisateur", "", ["u1", "u2"]⟩ rfl (by decide),
   (C8_payload_shape "" "" "" "" "" "" "" "" "" "" "").2.2.2.2
      ⟨some "Bob", none, none, none, none⟩ rfl⟩

theorem fanout_go_spec (env : Env) (c : FanoutCtx) (ts : List String)
    (s k : List (String × String)) :
    fanout_go env c ts s k =
      (s ++ (ts.map (processOne env c)).filterMap out_sent,
       k ++ (ts.map (processOne env c)).filterMap out_skip) := by
  induction ts generalizing s k with
  | nil => simp [fanout_go]
  | cons r rest ih =>
    cases h : processOne env c r with
    | sent rid m =>
      simp [fanout_go, h, ih, out_sent, out_skip]
    | skipped rid reason =>
      simp [fanout_go, h, ih, out_sent, out_skip]

theorem outcome_count (os : List Outcome) :
    (os.filterMap out_sent).length + (os.filterMap out_skip).length = os.length := by
  induction os with
  | nil => simp
  | cons o rest ih =>
    cases o <;> simp [out_sent, out_skip] <;> omega

/-- Claim C1: the fanout loop maps each recipient of the resolved list to
exactly one outcome, independently of the other recipients (the sent and
skipped views are the partition of a per-recipient map, and their sizes add
up to the recipient count), and a delivery failure for a recipient is caught
and recorded as a `send_error` skip for that recipient alone. -/
theorem C1_fanout_isolation (env : Env) (c : FanoutCtx) (targets : List String) :
    fanout_go env c targets [] [] =
      ((targets.map (processOne env c)).filterMap out_sent,
       (targets.map (processOne env c)).filterMap out_skip) ∧
    (fanout_go env c targets [] []).1.length + (fanout_go env c targets [] []).2.length =
      targets.length ∧
    (∀ r t e,
      (server_should_notify (get_user_notification_settings (env.users r))
        c.chat_type c.chat_id c.sender_id).1 = true →
      get_fcm_token_for_user (env.userTokens r) = some t →
      t ≠ "" →
      env.fcmSend t (build_common_data c.chat_id c.chat_type c.sender_id r
        c.sender_name c.sender_photo c.chat_name c.chat_photo c.preview c.title c.body) =
        Except.error e →
      processOne env c r = Outcome.skipped r "send_error") := by
  have hmain := fanout_go_spec env c targets [] []
  refine ⟨by simpa using hmain, ?_, ?_⟩
  · rw [hmain]
    simpa using outcome_count (targets.map (processOne env c))
  · intro r t e hpol htok hne hsend
    rw [processOne]
    simp only [hpol, if_true, htok]
    rw [if_neg hne]
    simp [send_data_only_to_token, hsend]

/-- Claim C1 witness: in a world whose FCM send always raises, a recipient
with default settings and a registered token is recorded as a `send_error`
skip. -/
theorem C1_fanout_isolation_witness :
    processOne envSendFail ctxEx "u2" = Outcome.skipped "u2" "send_error" :=
  (C1_fanout_isolation envSendFail ctxEx ["u2"]).2.2 "u2" "tok2" "boom"
    rfl rfl (by decide) rfl

theorem get_individual_receiver_error (P : List String) (s : String) (e : HTTPError) :
    get_individual_receiver P s = Except.error e → e.status = 400 := by
  rw [get_individual_receiver]
  split
  · intro h
    cases h
    rfl
  · cases hfil : P.filter (fun uid => !(uid = s)) with
    | nil =>
      simp only [hfil]
      intro h
      cases h
      rfl
    | cons r rest =>
      simp only [hfil]
      intro h
      cases h

theorem resolve_targets_error (chat_type : String) (participants : List String)
    (sender_id : String) (e : HTTPError) :
    resolve_targets chat_type participants sender_id = Except.error e →
    e.status = 400 := by
  rw [resolve_targets]
  split
  · intro h
    cases h
  · intro h
    cases hg : get_individual_receiver participants sender_id with
    | error e2 =>
      rw [hg] at h
      simp only [Except.map] at h
      cases h
      exact get_individual_receiver_error participants sender_id _ hg
    | ok r =>
      rw [hg] at h
      simp only [Except.map] at h
      cases h

/-- Claim C5: the send-notif request fails only at chat resolution (chat
absent, 404) or recipient resolution (400); every successful response — in
particular one whose recipients were all skipped — reports `success = true`. -/
theorem C5_request_level_success (env : Env) (req : SendMessageNotifRequest) :
    (∀ e, send_message_notification env req = Except.error e →
      (e.status = 404 ∧ env.chats req.chat_id = none) ∨ e.status = 400) ∧
    (∀ resp, send_message_notification env req = Except.ok resp →
      resp.success = true) := by
  constructor
  · intro e herr
    rw [send_message_notification] at herr
    split at herr
    · rename_i e2 heq
      cases herr
      cases hc : env.chats req.chat_id with
      | none =>
        rw [hc] at heq
        simp [get_chat_metadata] at heq
        subst heq
        exact Or.inl ⟨rfl, rfl⟩
      | some doc =>
        rw [hc] at heq
        simp [get_chat_metadata] at heq
    · rename_i meta heq
      split at herr
      · rename_i e2 heq2
        cases herr
        exact Or.inr (resolve_targets_error _ _ _ _ heq2)
      · rename_i targets heq2
        split at herr
        · cases herr
          exact Or.inr rfl
        · cases herr
  · intro resp hok
    rw [send_message_notification] at hok
    split at hok
    · cases hok
    · split at hok
      · cases hok
      · split at hok
        · cases hok
        · cases hok
          rfl

/-- Claim C5 witness: a world with no chats 404s, and a request whose single
recipient disabled notifications still answers `success = true` with that
recipient in the skipped list. -/
theorem C5_request_level_success_witness :
    (((⟨404, "Chat introuvable"⟩ : HTTPError).status = 404 ∧
        envNoChat.chats "c1" = none) ∨
      (⟨404, "Chat introuvable"⟩ : HTTPError).status = 400) ∧
    (⟨true, "c1", "individual", [], [("u2", "global_off")]⟩ : NotifResponse).success =
      true :=
  ⟨(C5_request_level_success envNoChat ⟨"u1", "c1", "x"⟩).1 ⟨404, "Chat introuvable"⟩ rfl,
   (C5_request_level_success envAllSkipped ⟨"u1", "c1", "hello"⟩).2
     ⟨true, "c1", "individual", [], [("u2", "global_off")]⟩ rfl⟩

end TeleChat
